import Mathlib

/-!
# Verification of the Praya GNOME Shell extension helper programs

Shallow embedding of the two Python programs of this repository:

* `lowspec-dialog.py` — the low-spec hardware decision dialog and its
  process exit codes.
* `praya-preferences.py` — the preferences window: JSON config
  load/merge/save (`_load_json`), the provider/model coupling of the AI
  page, the low-spec compound toggle, the systemd service-status check
  and the recurring posture poll.

Python `dict`s (as produced by `json.load` and the literal default
configs) are embedded as association lists `List (String × JVal)` whose
keys are pairwise distinct (the `Nodup` hypotheses below; a parsed JSON
object and a Python dict can never hold a duplicate key).  `lookup`
finds the first binding of a key; `setKey` is `d[k] = v` (replace in
place, else append — Python dicts preserve insertion order);
`updateDict base data` is `base.update(data)`.  Python dict equality
(`==`) compares the key→value maps irrespective of insertion order,
which `objEquiv` captures.
-/

set_option autoImplicit false

namespace Praya

/-- A JSON value as far as the configuration files use them:
booleans, strings and numbers (numbers only appear in corrupt files,
but the merge logic is value-agnostic, so the type keeps them). -/
inductive JVal where
  | jbool : Bool → JVal
  | jstr : String → JVal
  | jnum : Int → JVal
  deriving DecidableEq, Repr

/-- A Python `dict` / parsed JSON object: ordered key/value bindings. -/
abbrev Obj := List (String × JVal)

/-- The keys of an object, in insertion order. -/
def keys (o : Obj) : List String := o.map Prod.fst

/-- First binding of key `k` (Python `d[k]` / `d.get(k)`). -/
def lookup (o : Obj) (k : String) : Option JVal :=
  match o with
  | [] => none
  | (k', v) :: rest => if k' = k then some v else lookup rest k

/-- Python `d[k] = v`: replace the value of an existing key in place,
otherwise append the new binding at the end. -/
def setKey (o : Obj) (k : String) (v : JVal) : Obj :=
  match o with
  | [] => [(k, v)]
  | (k', v') :: rest =>
      if k' = k then (k', v) :: rest else (k', v') :: setKey rest k v

/-- Python `base.update(data)` (on a copy of `base`): fold `d[k] = v`
over `data`'s bindings in order. -/
def updateDict (base data : Obj) : Obj :=
  data.foldl (fun acc kv => setKey acc kv.1 kv.2) base

/-- Python dict equality `==`: same key→value map, order irrelevant. -/
def objEquiv (a b : Obj) : Prop := ∀ k, lookup a k = lookup b k

/-! ## `_load_json` (praya-preferences.py, lines 84–93)

```python
def _load_json(path, defaults):
    try:
        with open(path, 'r') as f:
            data = json.load(f)
        merged = dict(defaults)
        merged.update(data)
        return merged
    except (FileNotFoundError, json.JSONDecodeError):
        return dict(defaults)
```

The outcome of `open` + `json.load` on a given path is embedded as a
`ReadResult`.  `open` can fail with `FileNotFoundError` but also with
other `OSError`s (`PermissionError`, `IsADirectoryError`, …), which the
`except` clause does not catch; `json.load` fails with
`json.JSONDecodeError`. -/

/-- What reading and parsing the file at `path` produced. -/
inductive ReadResult where
  /-- Source: `open` raised `FileNotFoundError`. -/
  | fileNotFound : ReadResult
  /-- Source: `json.load` raised `json.JSONDecodeError`. -/
  | parseError : ReadResult
  /-- Source: `open` raised an `OSError` other than `FileNotFoundError`
  (e.g. `PermissionError`). -/
  | otherIOError : ReadResult
  /-- The file was read and parsed into the object. -/
  | ok : Obj → ReadResult
  deriving DecidableEq, Repr

/-- An exception propagating out of `_load_json`. -/
inductive PyError where
  | uncaughtIOError : PyError
  deriving DecidableEq, Repr

/-- Source: `_load_json path defaults`, as a function of what the read of
`path` produced.  `.error` is an exception escaping the function. -/
def loadJson (r : ReadResult) (defaults : Obj) : Except PyError Obj :=
  match r with
  | .ok data => .ok (updateDict defaults data)
  | .fileNotFound => .ok defaults
  | .parseError => .ok defaults
  | .otherIOError => .error .uncaughtIOError

/-- Source: `DEFAULT_SERVICES_CONFIG` (praya-preferences.py, lines 60–71). -/
def DEFAULT_SERVICES_CONFIG : Obj :=
  [ ("ai", .jbool false),
    ("posture", .jbool false),
    ("appMenuLayout", .jstr "grid"),
    ("mainMenuHoverActivate", .jbool false),
    ("taskbarHoverActivate", .jbool false),
    ("showDesktopHoverActivate", .jbool false),
    ("calendarHoverActivate", .jbool false),
    ("quickAccessHoverActivate", .jbool false),
    ("floatingPanel", .jbool true),
    ("panelPosition", .jstr "top") ]

/-- Source: `DEFAULT_CHATBOT_CONFIG` (praya-preferences.py, lines 73–77). -/
def DEFAULT_CHATBOT_CONFIG : Obj :=
  [ ("provider", .jstr "anthropic"),
    ("model", .jstr "claude-sonnet-4-20250514"),
    ("apiKey", .jstr "") ]

/-! ## Lowspec decision dialog (lowspec-dialog.py)

```python
class LowspecApp(Adw.Application):
    def __init__(self):
        ...
        self.exit_code = 2
    ...
    def _on_response(self, dialog, response):
        if response == 'ignore':
            self.exit_code = 0
        elif response == 'apply':
            self.exit_code = 1
        self.quit()

def main():
    app = LowspecApp()
    app.run([])
    sys.exit(app.exit_code)
```
-/

/-- The application state of the lowspec dialog: just the pending exit
code. -/
structure LowspecApp where
  exit_code : Nat
  deriving DecidableEq, Repr

/-- Source: `LowspecApp.__init__`: the exit code starts at 2. -/
def LowspecApp.init : LowspecApp := { exit_code := 2 }

/-- Source: `LowspecApp._on_response` (lowspec-dialog.py, lines 67–72),
without the final `self.quit()` which only ends the main loop. -/
def LowspecApp.on_response (app : LowspecApp) (response : String) : LowspecApp :=
  if response = "ignore" then { app with exit_code := 0 }
  else if response = "apply" then { app with exit_code := 1 }
  else app

/-- The process exit code as a function of the one `response` signal
that fired before the window went away (`none`: the window was
destroyed without any response having fired, so `exit_code` still holds
its initial value when `main` reaches `sys.exit`). -/
def lowspecExitCode (fired : Option String) : Nat :=
  match fired with
  | none => LowspecApp.init.exit_code
  | some r => (LowspecApp.init.on_response r).exit_code

/-! ## Service status check (`_check_service_status`, lines 480–499)

```python
try:
    result = subprocess.run(['systemctl', '--user', 'is-active', 'praya'],
                            capture_output=True, text=True, timeout=5)
    status = result.stdout.strip()
    if status == 'active': ...'Running'... True
    elif status == 'inactive': ...'Stopped'... False
    else: ...(status or 'Unknown')... False
except Exception: ...'Error checking status'... False
```

The outcome of the `subprocess.run` call is embedded as a `QueryResult`
carrying the raw (untrimmed) stdout on success. -/

/-- Outcome of the `systemctl --user is-active praya` invocation. -/
inductive QueryResult where
  /-- The process ran; payload is its raw stdout. -/
  | ok : String → QueryResult
  /-- Any exception, including `subprocess.TimeoutExpired`. -/
  | exc : QueryResult
  deriving DecidableEq, Repr

/-- What the service row displays plus the `_service_running` flag. -/
structure ServiceView where
  label : String
  running : Bool
  deriving DecidableEq, Repr

/-- Python `str.strip()` with no argument: drop leading and trailing
whitespace characters. -/
def pyStrip (s : String) : String :=
  ⟨((s.data.dropWhile Char.isWhitespace).reverse.dropWhile Char.isWhitespace).reverse⟩

/-- Source: `_check_service_status`, as a function of the query outcome.
`status or _('Unknown')` shows `'Unknown'` when the stripped output is
the empty string (falsy), else the stripped output itself. -/
def check_service_status (r : QueryResult) : ServiceView :=
  match r with
  | .ok out =>
      let status := pyStrip out
      if status = "active" then { label := "Running", running := true }
      else if status = "inactive" then { label := "Stopped", running := false }
      else { label := if status = "" then "Unknown" else status, running := false }
  | .exc => { label := "Error checking status", running := false }

/-! ## Posture polling (`_poll_posture`, lines 507–532)

```python
def _poll_posture(self):
    if not self._dbus:
        self._posture_status_label.set_label(_('D-Bus not available'))
        return GLib.SOURCE_CONTINUE
    try:
        reply = self._dbus.call_sync(..., 'GetUserPosture', ..., 200, ...)
        status = reply.get_child_value(0).get_string()
        score = reply.get_child_value(1).get_double()
        self._posture_status_label.set_label(f'{status} ({score:.2f})')
        self._posture_level_bar.set_value(max(0.0, min(1.0, score)))
    except Exception:
        self._posture_status_label.set_label(_('Service unavailable'))
        self._posture_level_bar.set_value(0.0)
    return GLib.SOURCE_CONTINUE
```

The D-Bus score is an IEEE double; only `max`/`min`/comparison are ever
applied to it, so it is embedded as a rational.  The status label is
embedded structurally (which message is shown, and for a sample, the
raw status string and raw score it renders) rather than as the
formatted f-string, since the `:.2f` rendering is display plumbing. -/

/-- The text shown in the posture status label. -/
inductive PostureText where
  /-- Initial `'Waiting for data...'`. -/
  | waiting : PostureText
  /-- Source: `'D-Bus not available'`. -/
  | dbusNotAvailable : PostureText
  /-- Source: `f'{status} ({score:.2f})'`: a live sample rendering the raw
  status string and the raw, unclamped score. -/
  | sample : String → ℚ → PostureText
  /-- Source: `'Service unavailable'`. -/
  | unavailable : PostureText
  deriving DecidableEq, Repr

/-- Posture display state: the status label and the level-bar value. -/
structure PostureView where
  text : PostureText
  gauge : ℚ
  deriving DecidableEq, Repr

/-- Outcome of one tick's `GetUserPosture` call. -/
inductive PollOutcome where
  /-- Source: `self._dbus` is `None`: the session bus was never obtained. -/
  | noDBus : PollOutcome
  /-- The call returned `(status, score)`. -/
  | ok : String → ℚ → PollOutcome
  /-- Any exception: service absent, call error, or the 200 ms
  per-call timeout. -/
  | err : PollOutcome
  deriving DecidableEq, Repr

/-- Source: `max(0.0, min(1.0, score))`. -/
def clampGauge (score : ℚ) : ℚ := max 0 (min 1 score)

/-- Source: `_poll_posture`: the new display state and the boolean the callback
returns to GLib (`GLib.SOURCE_CONTINUE = True` keeps the timer). -/
def poll_posture (v : PostureView) (o : PollOutcome) : PostureView × Bool :=
  match o with
  | .noDBus => ({ v with text := .dbusNotAvailable }, true)
  | .ok status score => ({ text := .sample status score, gauge := clampGauge score }, true)
  | .err => ({ text := .unavailable, gauge := 0 }, true)

/-- The timer slice of the window state: the posture display plus
whether the recurring GLib timeout source is still installed. -/
structure TimerState where
  view : PostureView
  pollActive : Bool
  deriving DecidableEq, Repr

/-- One firing of the 200 ms timer: if the source is installed, run
`_poll_posture` and keep the source iff the callback returned
`SOURCE_CONTINUE`; a removed source never fires. -/
def timerTick (s : TimerState) (o : PollOutcome) : TimerState :=
  if s.pollActive then
    let (v, cont) := poll_posture s.view o
    { view := v, pollActive := cont }
  else s

/-- Source: `_on_close` (lines 564–568): remove the timeout source if present. -/
def on_close (s : TimerState) : TimerState := { s with pollActive := false }

/-! ## AI page: provider/model coupling (lines 26–35, 347–368, 460–471)

The `PROVIDERS` registry maps a provider key to a display name and an
ordered model list.  `Adw.ComboRow.get_selected()` returns an unsigned
position, embedded as `Nat` (so the `0 <= idx` half of the Python range
guard holds by type); `set_selected` and `set_model` deliver the
connected `notify::selected` handler synchronously, which is how
`_update_model_list`'s selection write reaches `_on_model_changed`
inside `_on_provider_changed`. -/

/-- Source: `PROVIDERS` (lines 26–35): provider key ↦ (display name, models),
in insertion order. -/
def PROVIDERS : List (String × String × List String) :=
  [ ("anthropic", "Anthropic",
      ["claude-sonnet-4-20250514", "claude-opus-4-20250514", "claude-3-5-haiku-20241022"]),
    ("openai", "ChatGPT",
      ["gpt-4o", "gpt-4o-mini", "gpt-4-turbo"]) ]

/-- Source: `list(PROVIDERS.keys())`. -/
def providerKeys : List String := PROVIDERS.map Prod.fst

/-- Source: `PROVIDERS[pkey]['models']`.  Every caller passes a key returned by
`current_provider_key`, which is always present in the registry, so the
`[]` default of the embedding is unreachable in the program. -/
def providerModels (pkey : String) : List String :=
  ((PROVIDERS.find? (fun p => p.1 = pkey)).map (fun p => p.2.2)).getD []

/-- Source: `_current_provider_key` (lines 350–355): the key at the selected
index when in range, else `'anthropic'`. -/
def current_provider_key (idx : Nat) : String :=
  providerKeys.getD idx "anthropic"

/-- The AI-page slice of the window state: the two combo selections,
the in-memory `self._chatbot` dict and the last content written to
`chatbot.json` (`none` while nothing has been saved this session). -/
structure AIState where
  providerSelected : Nat
  modelSelected : Nat
  chatbot : Obj
  chatbotDisk : Option Obj
  deriving DecidableEq, Repr

/-- Source: `self._chatbot.get('model', '')`. -/
def chatbotModel (c : Obj) : JVal := (lookup c "model").getD (.jstr "")

/-- Source: `_update_model_list` (lines 357–368): repopulate the model combo
from the current provider and select the current model when it is in
the list, else position 0.  A non-string `model` value (possible only
in a corrupt file) compares unequal to every model string, so it also
falls back to 0. -/
def update_model_list (s : AIState) : AIState :=
  let models := providerModels (current_provider_key s.providerSelected)
  let sel := match chatbotModel s.chatbot with
    | .jstr m => if m ∈ models then models.indexOf m else 0
    | _ => 0
  { s with modelSelected := sel }

/-- Source: `_on_model_changed` (lines 465–471): persist the model at the
selected index, but only when that index is within the provider's model
list (`0 <= idx` is the `Nat` type). -/
def on_model_changed (s : AIState) : AIState :=
  let models := providerModels (current_provider_key s.providerSelected)
  let idx := s.modelSelected
  if h : idx < models.length then
    let c := setKey s.chatbot "model" (.jstr (models.get ⟨idx, h⟩))
    { s with chatbot := c, chatbotDisk := some c }
  else s

/-- Source: `_on_provider_changed` (lines 460–463), entered after the provider
row's selection changed to `newIdx`: `_update_model_list()` (whose
selection write delivers `notify::selected` to `_on_model_changed`),
then write the provider key and save. -/
def on_provider_changed (s : AIState) (newIdx : Nat) : AIState :=
  let s1 := update_model_list { s with providerSelected := newIdx }
  let s2 := on_model_changed s1
  let c := setKey s2.chatbot "provider" (.jstr (current_provider_key s2.providerSelected))
  { s2 with chatbot := c, chatbotDisk := some c }

/-! ## Low-spec compound toggle (`_on_lowspec_changed`, lines 391–428)

The two `Gio.Settings` writes (animations, extension lists) are
independently best-effort; the embedding models their success path,
which is where the list manipulation the claims speak about happens.
`self._layout_row.set_selected(...)` re-delivers `_on_layout_changed`,
which writes the same `appMenuLayout` value again and saves; the net
state is the one below. -/

/-- Source: `'tilingshell@ferrarodomenico.com'`. -/
def tilingId : String := "tilingshell@ferrarodomenico.com"

/-- The `org.gnome.shell` enabled/disabled extension lists. -/
structure ShellExts where
  enabledExts : List String
  disabledExts : List String
  deriving DecidableEq, Repr

/-- The panel-page slice of the window state touched by the low-spec
toggle. -/
structure PanelState where
  services : Obj
  servicesDisk : Option Obj
  layoutSelected : Nat
  shell : ShellExts
  animationsEnabled : Bool
  deriving DecidableEq, Repr

/-- Source: `_on_lowspec_changed` with the switch now at `enabled`. -/
def on_lowspec_changed (s : PanelState) (enabled : Bool) : PanelState :=
  let services := setKey s.services "lowspecEnabled" (.jbool enabled)
  let shell :=
    if enabled then
      { enabledExts := s.shell.enabledExts.filter (fun x => x ≠ tilingId),
        disabledExts :=
          if tilingId ∈ s.shell.disabledExts then s.shell.disabledExts
          else s.shell.disabledExts ++ [tilingId] }
    else
      { disabledExts := s.shell.disabledExts.filter (fun x => x ≠ tilingId),
        enabledExts :=
          if tilingId ∈ s.shell.enabledExts then s.shell.enabledExts
          else s.shell.enabledExts ++ [tilingId] }
  let newLayout := if enabled then "list" else "grid"
  let services := setKey services "appMenuLayout" (.jstr newLayout)
  { services := services,
    servicesDisk := some services,
    layoutSelected := if newLayout = "grid" then 0 else 1,
    shell := shell,
    animationsEnabled := !enabled }

/-- A run of the switch: fold successive toggle values over the state. -/
def toggleRun (s : PanelState) (toggles : List Bool) : PanelState :=
  toggles.foldl on_lowspec_changed s

/-! ## Dictionary lemmas -/

theorem keys_cons (k : String) (v : JVal) (o : Obj) :
    keys ((k, v) :: o) = k :: keys o := rfl

theorem lookup_setKey_self (o : Obj) (k : String) (v : JVal) :
    lookup (setKey o k v) k = some v := by
  induction o with
  | nil => simp [setKey, lookup]
  | cons kv rest ih =>
      obtain ⟨k', v'⟩ := kv
      by_cases h : k' = k
      · simp [setKey, lookup, h]
      · simp [setKey, lookup, h, ih]

theorem lookup_setKey_ne (o : Obj) (k a : String) (v : JVal) (h : k ≠ a) :
    lookup (setKey o k v) a = lookup o a := by
  induction o with
  | nil => simp [setKey, lookup, h]
  | cons kv rest ih =>
      obtain ⟨k', v'⟩ := kv
      by_cases hk : k' = k
      · subst hk
        simp [setKey, lookup, h]
      · by_cases ha : k' = a <;> simp [setKey, lookup, hk, ha, ih, Ne.symm h]

theorem keys_setKey (o : Obj) (k : String) (v : JVal) :
    keys (setKey o k v) = if k ∈ keys o then keys o else keys o ++ [k] := by
  induction o with
  | nil => simp [setKey, keys]
  | cons kv rest ih =>
      obtain ⟨k', v'⟩ := kv
      by_cases hk : k' = k
      · subst hk
        simp [setKey, keys]
      · simp only [setKey, if_neg hk, keys_cons]
        rw [ih]
        by_cases hm : k ∈ keys rest
        · rw [if_pos hm, if_pos (List.mem_cons_of_mem _ hm)]
        · rw [if_neg hm, if_neg (by simp [List.mem_cons, hm, Ne.symm hk]),
            List.cons_append]

theorem nodup_keys_setKey (o : Obj) (k : String) (v : JVal)
    (h : (keys o).Nodup) : (keys (setKey o k v)).Nodup := by
  rw [keys_setKey]
  by_cases hm : k ∈ keys o
  · simpa [hm] using h
  · rw [if_neg hm]
    refine List.Nodup.append h (List.nodup_singleton k) ?_
    intro a ha hak
    rw [List.mem_singleton] at hak
    exact hm (hak ▸ ha)

theorem lookup_eq_none_of_not_mem (o : Obj) (k : String) (h : k ∉ keys o) :
    lookup o k = none := by
  induction o with
  | nil => rfl
  | cons kv rest ih =>
      obtain ⟨k', v'⟩ := kv
      rw [keys_cons] at h
      have h1 : ¬ k' = k := by rintro rfl; exact h (List.mem_cons_self _ _)
      have h2 : k ∉ keys rest := fun hm => h (List.mem_cons_of_mem _ hm)
      simp [lookup, h1, ih h2]

theorem lookup_isSome_of_mem (o : Obj) (k : String) (h : k ∈ keys o) :
    (lookup o k).isSome := by
  induction o with
  | nil => simp [keys] at h
  | cons kv rest ih =>
      obtain ⟨k', v'⟩ := kv
      by_cases hk : k' = k
      · simp [lookup, hk]
      · rw [keys_cons] at h
        rcases List.mem_cons.mp h with h | h
        · exact absurd h.symm hk
        · simpa [lookup, hk] using ih h

theorem updateDict_nil (base : Obj) : updateDict base [] = base := rfl

theorem updateDict_cons (base : Obj) (k : String) (v : JVal) (rest : Obj) :
    updateDict base ((k, v) :: rest) = updateDict (setKey base k v) rest := rfl

theorem lookup_updateDict_not_mem (data : Obj) :
    ∀ (base : Obj) (k : String), k ∉ keys data →
      lookup (updateDict base data) k = lookup base k := by
  induction data with
  | nil => intro base k _; rfl
  | cons kv rest ih =>
      intro base k h
      obtain ⟨k', v'⟩ := kv
      rw [keys_cons] at h
      have h1 : k' ≠ k := by rintro rfl; exact h (List.mem_cons_self _ _)
      have h2 : k ∉ keys rest := fun hm => h (List.mem_cons_of_mem _ hm)
      rw [updateDict_cons, ih _ _ h2, lookup_setKey_ne _ _ _ _ h1]

theorem lookup_updateDict_mem (data : Obj) :
    ∀ (base : Obj) (k : String), (keys data).Nodup → k ∈ keys data →
      lookup (updateDict base data) k = lookup data k := by
  induction data with
  | nil => intro base k _ h; simp [keys] at h
  | cons kv rest ih =>
      intro base k hd h
      obtain ⟨k', v'⟩ := kv
      rw [keys_cons, List.nodup_cons] at hd
      by_cases hk : k' = k
      · subst hk
        rw [updateDict_cons, lookup_updateDict_not_mem _ _ _ hd.1,
          lookup_setKey_self]
        simp [lookup]
      · rw [keys_cons] at h
        rcases List.mem_cons.mp h with h | h
        · exact absurd h.symm hk
        · rw [updateDict_cons, ih _ _ hd.2 h]
          simp [lookup, hk]

theorem lookup_updateDict (base data : Obj) (k : String)
    (hd : (keys data).Nodup) :
    lookup (updateDict base data) k = (lookup data k).or (lookup base k) := by
  by_cases h : k ∈ keys data
  · rw [lookup_updateDict_mem data base k hd h]
    obtain ⟨v, hv⟩ := Option.isSome_iff_exists.mp (lookup_isSome_of_mem data k h)
    simp [hv]
  · rw [lookup_updateDict_not_mem data base k h,
      lookup_eq_none_of_not_mem data k h]
    simp

theorem nodup_keys_updateDict (data : Obj) :
    ∀ base : Obj, (keys base).Nodup → (keys (updateDict base data)).Nodup := by
  induction data with
  | nil => intro base hb; exact hb
  | cons kv rest ih =>
      intro base hb
      obtain ⟨k', v'⟩ := kv
      rw [updateDict_cons]
      exact ih _ (nodup_keys_setKey _ _ _ hb)

/-! ## Provider/model helper lemmas -/

theorem current_provider_key_cases (idx : Nat) :
    current_provider_key idx = "anthropic" ∨ current_provider_key idx = "openai" := by
  match idx with
  | 0 => exact Or.inl rfl
  | 1 => exact Or.inr rfl
  | n + 2 => exact Or.inl rfl

theorem providerModels_length (idx : Nat) :
    (providerModels (current_provider_key idx)).length = 3 := by
  rcases current_provider_key_cases idx with h | h <;> rw [h] <;> rfl

theorem get_zero_eq_headD (l : List String) (h : 0 < l.length) :
    l.get ⟨0, h⟩ = l.headD "" := by
  cases l with
  | nil => simp at h
  | cons a t => rfl

/-- The combined effect of `_update_model_list` followed by the
`notify::selected` delivery of `_on_model_changed`: the persisted model
is the previous one when still offered by the current provider, else
the provider's first listed model. -/
theorem model_resolution (s : AIState) (m : String)
    (hm : chatbotModel s.chatbot = .jstr m) :
    (on_model_changed (update_model_list s)).chatbot
        = setKey s.chatbot "model"
            (.jstr (if m ∈ providerModels (current_provider_key s.providerSelected)
                    then m
                    else (providerModels (current_provider_key s.providerSelected)).headD ""))
      ∧ (on_model_changed (update_model_list s)).chatbotDisk
        = some (on_model_changed (update_model_list s)).chatbot
      ∧ (on_model_changed (update_model_list s)).providerSelected = s.providerSelected := by
  have hlen : (providerModels (current_provider_key s.providerSelected)).length = 3 :=
    providerModels_length _
  set models := providerModels (current_provider_key s.providerSelected) with hmodels
  have hul : update_model_list s
      = { s with modelSelected := if m ∈ models then models.indexOf m else 0 } := by
    rw [update_model_list, hm]
  by_cases hc : m ∈ models
  · have hidx : models.indexOf m < models.length := List.indexOf_lt_length.mpr hc
    have hget : models.get ⟨models.indexOf m, hidx⟩ = m := List.indexOf_get hidx
    rw [hul, on_model_changed]
    simp only [hc, if_true, ← hmodels]
    rw [dif_pos hidx]
    simp [hget, hc]
  · have hpos : 0 < models.length := by rw [hlen]; exact Nat.succ_pos 2
    rw [hul, on_model_changed]
    simp only [hc, if_false, ← hmodels]
    rw [dif_pos hpos]
    refine ⟨?_, rfl, rfl⟩
    show setKey s.chatbot "model" (.jstr (models.get ⟨0, hpos⟩))
        = setKey s.chatbot "model" (.jstr (models.headD ""))
    rw [get_zero_eq_headD models hpos]

/-! ## Low-spec toggle helper lemmas -/

theorem not_mem_filter_tiling (l : List String) :
    tilingId ∉ l.filter (fun x => x ≠ tilingId) := by
  intro hmem
  have h := List.mem_filter.mp hmem
  simp at h

theorem mem_if_append_tiling (l : List String) :
    tilingId ∈ (if tilingId ∈ l then l else l ++ [tilingId]) := by
  by_cases hm : tilingId ∈ l
  · rw [if_pos hm]; exact hm
  · simp [hm]

theorem count_if_append_tiling (l : List String) (h : l.count tilingId ≤ 1) :
    (if tilingId ∈ l then l else l ++ [tilingId]).count tilingId ≤ 1 := by
  by_cases hm : tilingId ∈ l
  · simpa [hm] using h
  · rw [if_neg hm, List.count_append, List.count_eq_zero.mpr hm]
    simp

theorem lowspec_count_invariant (s : PanelState) (b : Bool)
    (he : s.shell.enabledExts.count tilingId ≤ 1)
    (hd : s.shell.disabledExts.count tilingId ≤ 1) :
    (on_lowspec_changed s b).shell.enabledExts.count tilingId ≤ 1 ∧
    (on_lowspec_changed s b).shell.disabledExts.count tilingId ≤ 1 := by
  cases b with
  | false =>
      refine ⟨count_if_append_tiling _ he, ?_⟩
      show (s.shell.disabledExts.filter (fun x => x ≠ tilingId)).count tilingId ≤ 1
      rw [List.count_eq_zero.mpr (not_mem_filter_tiling _)]
      exact Nat.zero_le 1
  | true =>
      refine ⟨?_, count_if_append_tiling _ hd⟩
      show (s.shell.enabledExts.filter (fun x => x ≠ tilingId)).count tilingId ≤ 1
      rw [List.count_eq_zero.mpr (not_mem_filter_tiling _)]
      exact Nat.zero_le 1

theorem toggleRun_count_invariant (toggles : List Bool) :
    ∀ s : PanelState, s.shell.enabledExts.count tilingId ≤ 1 →
      s.shell.disabledExts.count tilingId ≤ 1 →
      (toggleRun s toggles).shell.enabledExts.count tilingId ≤ 1 ∧
      (toggleRun s toggles).shell.disabledExts.count tilingId ≤ 1 := by
  induction toggles with
  | nil => intro s he hd; exact ⟨he, hd⟩
  | cons b rest ih =>
      intro s he hd
      have h := lowspec_count_invariant s b he hd
      exact ih _ h.1 h.2

/-! ## Claim theorems -/

/-- C1: the Lowspec Decision Dialog process exits with code 0 when the
response that fired is `'ignore'`, with code 1 when it is `'apply'`,
and with code 2 when the window is closed/destroyed without any
response having fired. -/
theorem c1_lowspec_exit_codes :
    lowspecExitCode (some "ignore") = 0 ∧
    lowspecExitCode (some "apply") = 1 ∧
    lowspecExitCode none = 2 := by decide

/-- C2, counterexample: an I/O failure of `open` other than
`FileNotFoundError` (e.g. `PermissionError`) is not caught by
`_load_json`, so the failure propagates instead of a fresh copy of the
defaults being returned, refuting "on any read or parse failure it
returns a fresh copy of defaults". -/
theorem c2_counterexample :
    loadJson .otherIOError DEFAULT_SERVICES_CONFIG = .error .uncaughtIOError := rfl

/-- C2 (amended): `load(path, defaults)` catches exactly the
missing-file and parse failures — on `FileNotFoundError` or
`json.JSONDecodeError` it returns a fresh copy of `defaults`, and on
success it returns the shallow merge of `defaults` with the parsed
object, parsed values taking per-key precedence — while any other I/O
failure (e.g. permission denied) propagates. -/
theorem c2_load_json_total (defaults data : Obj) (hd : (keys data).Nodup) :
    loadJson .fileNotFound defaults = .ok defaults ∧
    loadJson .parseError defaults = .ok defaults ∧
    (∃ merged, loadJson (.ok data) defaults = .ok merged ∧
      ∀ k, lookup merged k = (lookup data k).or (lookup defaults k)) ∧
    loadJson .otherIOError defaults = .error .uncaughtIOError := by
  refine ⟨rfl, rfl, ⟨updateDict defaults data, rfl, ?_⟩, rfl⟩
  intro k
  exact lookup_updateDict defaults data k hd

theorem c2_witness :
    (keys [("provider", JVal.jstr "openai")]).Nodup ∧
    (∃ merged,
      loadJson (.ok [("provider", JVal.jstr "openai")]) DEFAULT_CHATBOT_CONFIG
        = .ok merged ∧
      ∀ k, lookup merged k
        = (lookup [("provider", JVal.jstr "openai")] k).or
            (lookup DEFAULT_CHATBOT_CONFIG k)) :=
  ⟨by decide,
   (c2_load_json_total DEFAULT_CHATBOT_CONFIG
     [("provider", JVal.jstr "openai")] (by decide)).2.2.1⟩

/-- C3: when the provider selection changes, the selected model is
re-resolved for the new provider — kept when it belongs to the new
provider's model list, else the new provider's first listed model —
and the provider together with the resolved model are persisted;
in particular switching to provider `'openai'` (index 1) while the
model is `'claude-opus-4-20250514'` resolves the model to `'gpt-4o'`. -/
theorem c3_provider_change_resolves_model (s : AIState) (idx : Nat) (m : String)
    (hm : chatbotModel s.chatbot = .jstr m) :
    lookup (on_provider_changed s idx).chatbot "provider"
        = some (.jstr (current_provider_key idx)) ∧
    lookup (on_provider_changed s idx).chatbot "model"
        = some (.jstr (if m ∈ providerModels (current_provider_key idx) then m
                       else (providerModels (current_provider_key idx)).headD "")) ∧
    (on_provider_changed s idx).chatbotDisk = some (on_provider_changed s idx).chatbot ∧
    lookup (on_provider_changed
        { providerSelected := 0, modelSelected := 1,
          chatbot := [("provider", JVal.jstr "anthropic"),
                      ("model", JVal.jstr "claude-opus-4-20250514"),
                      ("apiKey", JVal.jstr "")],
          chatbotDisk := none } 1).chatbot "model" = some (.jstr "gpt-4o") := by
  obtain ⟨hc, hdisk, hps⟩ :=
    model_resolution { s with providerSelected := idx } m hm
  simp only [on_provider_changed]
  rw [hps, hc]
  refine ⟨lookup_setKey_self _ _ _, ?_, by trivial, by decide⟩
  rw [lookup_setKey_ne _ _ _ _ (by decide), lookup_setKey_self]

theorem c3_witness :
    chatbotModel [("model", JVal.jstr "gpt-4o")] = JVal.jstr "gpt-4o" ∧
    lookup (on_provider_changed
        { providerSelected := 0, modelSelected := 0,
          chatbot := [("model", JVal.jstr "gpt-4o")], chatbotDisk := none } 1).chatbot
        "model"
      = some (.jstr (if "gpt-4o" ∈ providerModels (current_provider_key 1) then "gpt-4o"
                     else (providerModels (current_provider_key 1)).headD "")) :=
  ⟨rfl,
   (c3_provider_change_resolves_model
     { providerSelected := 0, modelSelected := 0,
       chatbot := [("model", JVal.jstr "gpt-4o")], chatbotDisk := none }
     1 "gpt-4o" rfl).2.1⟩

/-- C4, counterexample: from a state with layout `'grid'` and
`lowspecEnabled=false` whose disabled-extensions list already holds the
tiling identifier twice, one "on" toggle leaves both occurrences in
place (the code only appends when absent and never deduplicates an
already-duplicated disabled list), refuting "after any number of
toggles, neither list contains duplicate entries of that identifier". -/
theorem c4_counterexample :
    lookup ({ services := [("appMenuLayout", JVal.jstr "grid"),
                           ("lowspecEnabled", JVal.jbool false)],
              servicesDisk := none, layoutSelected := 0,
              shell := { enabledExts := [], disabledExts := [tilingId, tilingId] },
              animationsEnabled := true } : PanelState).services "appMenuLayout"
        = some (.jstr "grid") ∧
    (on_lowspec_changed
        { services := [("appMenuLayout", JVal.jstr "grid"),
                       ("lowspecEnabled", JVal.jbool false)],
          servicesDisk := none, layoutSelected := 0,
          shell := { enabledExts := [], disabledExts := [tilingId, tilingId] },
          animationsEnabled := true } true).shell.disabledExts.count tilingId = 2 := by
  decide

/-- C4 (amended): toggling low-spec mode on forces `appMenuLayout` to
`'list'` and leaves the tiling identifier in the disabled list and
absent from the enabled list; toggling back off forces `'grid'` and
moves the identifier back to the enabled list (and out of the disabled
list); and, provided the identifier initially occurs at most once in
each list, after any number of toggles neither list contains duplicate
entries of it. -/
theorem c4_lowspec_toggle_symmetry (s : PanelState) (toggles : List Bool)
    (he : s.shell.enabledExts.count tilingId ≤ 1)
    (hd : s.shell.disabledExts.count tilingId ≤ 1) :
    (lookup (on_lowspec_changed s true).services "appMenuLayout"
        = some (.jstr "list") ∧
      tilingId ∈ (on_lowspec_changed s true).shell.disabledExts ∧
      tilingId ∉ (on_lowspec_changed s true).shell.enabledExts) ∧
    (lookup (on_lowspec_changed (on_lowspec_changed s true) false).services
          "appMenuLayout" = some (.jstr "grid") ∧
      tilingId ∈ (on_lowspec_changed (on_lowspec_changed s true) false).shell.enabledExts ∧
      tilingId ∉ (on_lowspec_changed (on_lowspec_changed s true) false).shell.disabledExts) ∧
    ((toggleRun s toggles).shell.enabledExts.count tilingId ≤ 1 ∧
      (toggleRun s toggles).shell.disabledExts.count tilingId ≤ 1) :=
  ⟨⟨lookup_setKey_self _ _ _, mem_if_append_tiling _, not_mem_filter_tiling _⟩,
   ⟨lookup_setKey_self _ _ _, mem_if_append_tiling _, not_mem_filter_tiling _⟩,
   toggleRun_count_invariant toggles s he hd⟩

theorem c4_witness :
    (([] : List String).count tilingId ≤ 1 ∧ [tilingId].count tilingId ≤ 1) ∧
    ((toggleRun
        { services := [("appMenuLayout", JVal.jstr "grid"),
                       ("lowspecEnabled", JVal.jbool false)],
          servicesDisk := none, layoutSelected := 0,
          shell := { enabledExts := [tilingId], disabledExts := [] },
          animationsEnabled := true }
        [true, false, true]).shell.enabledExts.count tilingId ≤ 1 ∧
      (toggleRun
        { services := [("appMenuLayout", JVal.jstr "grid"),
                       ("lowspecEnabled", JVal.jbool false)],
          servicesDisk := none, layoutSelected := 0,
          shell := { enabledExts := [tilingId], disabledExts := [] },
          animationsEnabled := true }
        [true, false, true]).shell.disabledExts.count tilingId ≤ 1) :=
  ⟨⟨by decide, by decide⟩,
   (c4_lowspec_toggle_symmetry
     { services := [("appMenuLayout", JVal.jstr "grid"),
                    ("lowspecEnabled", JVal.jbool false)],
       servicesDisk := none, layoutSelected := 0,
       shell := { enabledExts := [tilingId], disabledExts := [] },
       animationsEnabled := true }
     [true, false, true] (by decide) (by decide)).2.2⟩

/-- C5: for every defaults object and every on-disk JSON object (whose
keys, as a parsed JSON object, are distinct), the merged config
returned by load contains every key of the default schema, loaded
values override defaults key-by-key and unknown on-disk keys are
preserved (both via the second conjunct, since a key of the on-disk
object reads back with the on-disk value whether or not the schema
knows it); and loading `{}` for services.json yields exactly the stated
default object. -/
theorem c5_load_merge_backfill (defaults data : Obj) (hd : (keys data).Nodup) :
    (∃ merged, loadJson (.ok data) defaults = .ok merged ∧
      (∀ k, k ∈ keys defaults → (lookup merged k).isSome) ∧
      (∀ k, k ∈ keys data → lookup merged k = lookup data k)) ∧
    loadJson (.ok []) DEFAULT_SERVICES_CONFIG = .ok DEFAULT_SERVICES_CONFIG := by
  refine ⟨⟨updateDict defaults data, rfl, ?_, ?_⟩, rfl⟩
  · intro k hk
    rw [lookup_updateDict defaults data k hd]
    cases hval : lookup data k
    · simpa using lookup_isSome_of_mem defaults k hk
    · simp
  · intro k hk
    exact lookup_updateDict_mem data defaults k hd hk

theorem c5_witness :
    (keys [("appMenuLayout", JVal.jstr "list"), ("foo", JVal.jstr "bar")]).Nodup ∧
    (∃ merged,
      loadJson (.ok [("appMenuLayout", JVal.jstr "list"), ("foo", JVal.jstr "bar")])
          DEFAULT_SERVICES_CONFIG = .ok merged ∧
      (∀ k, k ∈ keys DEFAULT_SERVICES_CONFIG → (lookup merged k).isSome) ∧
      (∀ k, k ∈ keys [("appMenuLayout", JVal.jstr "list"), ("foo", JVal.jstr "bar")] →
        lookup merged k
          = lookup [("appMenuLayout", JVal.jstr "list"), ("foo", JVal.jstr "bar")] k)) :=
  ⟨by decide,
   (c5_load_merge_backfill DEFAULT_SERVICES_CONFIG
     [("appMenuLayout", JVal.jstr "list"), ("foo", JVal.jstr "bar")] (by decide)).1⟩

/-- C6, counterexample: stdout `"\n"` strips to the empty string, which
is neither `'active'` nor `'inactive'`; the claim then demands the raw
stripped label (the empty string) verbatim, but the code's
`status or _('Unknown')` shows `'Unknown'` instead. -/
theorem c6_counterexample :
    pyStrip "\n" = "" ∧
    check_service_status (.ok "\n") = { label := "Unknown", running := false } := by
  decide

/-- C6 (amended): the service-liveness check classifies the stripped
stdout as `'active'` → Running, `'inactive'` → Stopped, any other
non-empty output → that raw stripped label shown verbatim, and empty
output → `'Unknown'`; any exception or timeout of the query maps to the
Error status. -/
theorem c6_service_status_classification (out : String) :
    (pyStrip out = "active" →
      check_service_status (.ok out) = { label := "Running", running := true }) ∧
    (pyStrip out = "inactive" →
      check_service_status (.ok out) = { label := "Stopped", running := false }) ∧
    (pyStrip out ≠ "active" → pyStrip out ≠ "inactive" → pyStrip out ≠ "" →
      check_service_status (.ok out) = { label := pyStrip out, running := false }) ∧
    (pyStrip out ≠ "active" → pyStrip out ≠ "inactive" → pyStrip out = "" →
      check_service_status (.ok out) = { label := "Unknown", running := false }) ∧
    check_service_status .exc = { label := "Error checking status", running := false } := by
  refine ⟨?_, ?_, ?_, ?_, rfl⟩
  · intro h; simp [check_service_status, h]
  · intro h; simp [check_service_status, h]
  · intro h1 h2 h3; simp [check_service_status, h1, h2, h3]
  · intro h1 h2 h3; simp [check_service_status, h1, h2, h3]

theorem c6_witness :
    check_service_status (.ok "active\n") = { label := "Running", running := true } ∧
    check_service_status (.ok "failed\n") = { label := "failed", running := false } :=
  ⟨(c6_service_status_classification "active\n").1 (by decide),
   (c6_service_status_classification "failed\n").2.2.1 (by decide) (by decide) (by decide)⟩

/-- C7: while the recurring timer is installed, every failing poll tick
(service absent, call error or timeout — the exception path) replaces
the whole displayed sample by the explicit unavailable state with the
gauge reset to 0, so no stale prior-success value survives a failed
tick; the callback returns `SOURCE_CONTINUE` on every outcome (success,
failure or D-Bus unavailable), so the timer keeps firing; and closing
the window removes the timer source. -/
theorem c7_poll_failure_and_timer (s : TimerState) (o : PollOutcome)
    (hs : s.pollActive = true) :
    (timerTick s o).pollActive = true ∧
    (o = .err → (timerTick s o).view = { text := .unavailable, gauge := 0 }) ∧
    (on_close (timerTick s o)).pollActive = false := by
  refine ⟨?_, ?_, rfl⟩
  · cases o <;> simp [timerTick, poll_posture, hs]
  · rintro rfl; simp [timerTick, poll_posture, hs]

theorem c7_witness :
    ({ view := { text := .sample "good" (9/10), gauge := 9/10 },
       pollActive := true } : TimerState).pollActive = true ∧
    (timerTick
        { view := { text := .sample "good" (9/10), gauge := 9/10 }, pollActive := true }
        .err).view = { text := .unavailable, gauge := 0 } :=
  ⟨rfl,
   (c7_poll_failure_and_timer
     { view := { text := .sample "good" (9/10), gauge := 9/10 }, pollActive := true }
     .err rfl).2.1 rfl⟩

/-- C8: on every successful poll the gauge value displayed is the score
clamped to `[0, 1]` — in particular a score of 1.7 yields gauge 1.0 and
a score of -0.3 yields gauge 0.0 — while the status text still carries
the unclamped raw score. -/
theorem c8_gauge_clamping (v : PostureView) (status : String) (score : ℚ) :
    (poll_posture v (.ok status score)).1
        = { text := .sample status score, gauge := clampGauge score } ∧
    0 ≤ clampGauge score ∧ clampGauge score ≤ 1 ∧
    clampGauge (17/10) = 1 ∧ clampGauge (-3/10) = 0 := by
  refine ⟨rfl, le_max_left 0 _, max_le zero_le_one (min_le_left 1 score), ?_, ?_⟩
  · norm_num [clampGauge, min_def, max_def]
  · norm_num [clampGauge, min_def, max_def]

/-- C9: the load-time merge is idempotent — for every defaults object
and partial object (with distinct keys each, as Python dicts have),
`merge(defaults, merge(defaults, partial))` equals
`merge(defaults, partial)` as Python dict equality (same key→value
map). -/
theorem c9_merge_idempotent (defaults partObj : Obj)
    (hd : (keys defaults).Nodup) (hp : (keys partObj).Nodup) :
    objEquiv (updateDict defaults (updateDict defaults partObj))
      (updateDict defaults partObj) := by
  intro k
  have hm : (keys (updateDict defaults partObj)).Nodup :=
    nodup_keys_updateDict partObj defaults hd
  rw [lookup_updateDict defaults _ k hm, lookup_updateDict defaults partObj k hp]
  cases h : lookup partObj k <;> cases h2 : lookup defaults k <;> simp

theorem c9_witness :
    (keys DEFAULT_SERVICES_CONFIG).Nodup ∧
    (keys [("appMenuLayout", JVal.jstr "list")]).Nodup ∧
    lookup (updateDict DEFAULT_SERVICES_CONFIG
        (updateDict DEFAULT_SERVICES_CONFIG [("appMenuLayout", JVal.jstr "list")]))
        "appMenuLayout"
      = lookup (updateDict DEFAULT_SERVICES_CONFIG
          [("appMenuLayout", JVal.jstr "list")]) "appMenuLayout" :=
  ⟨by decide, by decide,
   c9_merge_idempotent DEFAULT_SERVICES_CONFIG [("appMenuLayout", JVal.jstr "list")]
     (by decide) (by decide) "appMenuLayout"⟩

/-- C10: a selected model index outside the bounds of the current
provider's model list leaves the state — in particular the in-memory
ChatbotConfig and the on-disk file — entirely unchanged with no save;
and an out-of-range provider index resolves the provider key to
`'anthropic'`. -/
theorem c10_out_of_range_frame :
    (∀ s : AIState,
      (providerModels (current_provider_key s.providerSelected)).length
          ≤ s.modelSelected →
      on_model_changed s = s) ∧
    (∀ idx : Nat, providerKeys.length ≤ idx →
      current_provider_key idx = "anthropic") := by
  constructor
  · intro s h
    rw [on_model_changed, dif_neg (Nat.not_lt.mpr h)]
  · intro idx h
    exact List.getD_eq_default _ _ h

theorem c10_witness :
    (providerModels (current_provider_key
        ({ providerSelected := 0, modelSelected := 5, chatbot := [],
           chatbotDisk := none } : AIState).providerSelected)).length
        ≤ ({ providerSelected := 0, modelSelected := 5, chatbot := [],
             chatbotDisk := none } : AIState).modelSelected ∧
    on_model_changed
        { providerSelected := 0, modelSelected := 5, chatbot := [], chatbotDisk := none }
      = { providerSelected := 0, modelSelected := 5, chatbot := [], chatbotDisk := none } ∧
    providerKeys.length ≤ 7 ∧
    current_provider_key 7 = "anthropic" :=
  ⟨by decide,
   c10_out_of_range_frame.1
     { providerSelected := 0, modelSelected := 5, chatbot := [], chatbotDisk := none }
     (by decide),
   by decide,
   c10_out_of_range_frame.2 7 (by decide)⟩

end Praya
